import Mathlib

/-!
Shallow embedding of the course-catalog service in `src/app.py`.

The application keeps its catalog in a single JSON file (`course_catalog.json`),
a process-wide `error_count`, a `catalog_access_count`, and a `logged_ips` set.
Each Flask route is modelled as a pure function from an explicit application
state to a new state together with the ordered list of observable effects it
produces (log records, flash messages, span starts/ends, span attributes and
events) and an HTTP response.  File I/O faults are modelled by an explicit
`writeOk` flag for the write in `save_courses`, and by the file content itself
for reads (`none` = file absent, `some none` = present but unreadable JSON,
`some (some l)` = parses as the list `l`).
-/

namespace CourseCatalog

/-- Scalar span-attribute values: strings and integers. -/
inductive AttrVal
  | str (s : String)
  | num (n : Nat)
  deriving DecidableEq, Repr

/-- One observable effect, in emission order: span lifecycle, span attributes
and events, structured log records, and flash messages. -/
inductive TraceEvent
  | spanStart (name : String)
  | spanEnd (name : String)
  | setAttribute (span key : String) (v : AttrVal)
  | addEvent (span msg : String)
  | logInfo (msg : String)
  | logError (msg : String)
  | flash (msg category : String)
  deriving DecidableEq, Repr

/-- A course record as a Python dict: each of the nine fields may be absent
(`none`) or present with a string value (possibly empty). -/
structure CourseData where
  (code name instructor semester schedule classroom : Option String)
  (prerequisites grading description : Option String)
  deriving DecidableEq, Repr

/-- A fully-populated course record, as `add_course` builds from the form:
all nine fields present (possibly empty strings). -/
structure Course where
  (code name instructor semester schedule classroom : String)
  (prerequisites grading description : String)
  deriving DecidableEq, Repr

/-- The dict `add_course` builds from a full form: every field present. -/
def Course.toData (c : Course) : CourseData :=
  ⟨some c.code, some c.name, some c.instructor, some c.semester, some c.schedule,
   some c.classroom, some c.prerequisites, some c.grading, some c.description⟩

/-- On-disk state of `course_catalog.json`: `none` = the file does not exist;
`some none` = the file exists but its content does not parse; `some (some l)`
= the file parses as the course list `l`. -/
abbrev FileContent := Option (Option (List CourseData))

/-- The error raised when persisted content is present but unreadable. -/
inductive StorageError
  | unreadable
  deriving DecidableEq, Repr

/-- A `KeyError`-style fault from indexing a dict at an absent key. -/
inductive PyError
  | keyError
  deriving DecidableEq, Repr

/-- Process-wide mutable state of the Flask app. -/
structure St where
  (file : FileContent)
  (error_count : Nat)
  (catalog_access_count : Nat)
  (logged_ips : List String)
  deriving DecidableEq, Repr

/-- HTTP responses the routes can produce. -/
inductive Response
  | page (template : String)
  | catalogPage (courses : List CourseData)
  | detailsPage (course : CourseData)
  | redirect (endpoint : String)
  | text (body : String) (status : Nat)
  | badRequest
  | serverError
  deriving DecidableEq, Repr

/-- Result of one route invocation: new state, emitted effects in order, and
the response. -/
structure RouteResult where
  (state : St)
  (trace : List TraceEvent)
  (response : Response)
  deriving DecidableEq, Repr

/-- Embeds `load_courses`: empty list when the file does not exist, the parsed
list when it parses, `StorageError` when it exists but is unreadable. -/
def load_courses (file : FileContent) : Except StorageError (List CourseData) :=
  match file with
  | none => .ok []
  | some none => .error .unreadable
  | some (some courses) => .ok courses

/-- Dict lookup `data[field]` for the nine known field names. -/
def getField (d : CourseData) : String → Option String
  | "code" => d.code
  | "name" => d.name
  | "instructor" => d.instructor
  | "semester" => d.semester
  | "schedule" => d.schedule
  | "classroom" => d.classroom
  | "prerequisites" => d.prerequisites
  | "grading" => d.grading
  | "description" => d.description
  | _ => none

/-- The per-field test in `save_courses`: `field not in data or not data[field]`
(absent, or present with a falsy value, which for strings means empty). -/
def fieldMissing (d : CourseData) (f : String) : Bool :=
  match getField d f with
  | none => true
  | some v => v == ""

/-- The `required_fields` list in `save_courses`. -/
def required_fields : List String := ["code", "name"]

/-- The `missing_fields` list comprehension in `save_courses`. -/
def missing_fields (d : CourseData) : List String :=
  required_fields.filter (fieldMissing d)

/-- The error message flashed and logged for missing fields. -/
def missingMsg (d : CourseData) : String :=
  "Missing required fields: " ++ String.intercalate ", " (missing_fields d)

/-- The success log line inside the `try` block.  Formatting it indexes
`data` at the keys `name` and `code`, so an absent key raises a `KeyError`
inside the `try` (result `none`). -/
def successLog (d : CourseData) : Option String :=
  match d.name, d.code with
  | some nm, some cd =>
      some ("Course \x27" ++ nm ++ "\x27 added with code \x27" ++ cd ++ "\x27")
  | _, _ => none

/-- Effects of the `except` branch in `save_courses`: error log, then the
`save_courses_error` span with its attributes and event. -/
def saveErrorTrace (msg : String) (ec : Nat) : List TraceEvent :=
  [ .logError ("Error saving course data: " ++ msg),
    .spanStart "save_courses_error",
    .setAttribute "save_courses_error" "error.type" (.str "FileWriteError"),
    .setAttribute "save_courses_error" "error.count" (.num ec),
    .addEvent "save_courses_error" ("Error saving course data: " ++ msg),
    .spanEnd "save_courses_error" ]

/-- Effects of the missing-fields branch in `save_courses`: error log, flash,
then the `save_courses_error` span with its attributes and event. -/
def missingTrace (msg : String) (ec : Nat) : List TraceEvent :=
  [ .logError msg,
    .flash msg "error",
    .spanStart "save_courses_error",
    .setAttribute "save_courses_error" "error.type" (.str "MissingFields"),
    .setAttribute "save_courses_error" "error.count" (.num ec),
    .addEvent "save_courses_error" msg,
    .spanEnd "save_courses_error" ]

/-- Embeds `save_courses(data)`.  `writeOk` injects the outcome of the file
write inside the `try` block.  Mirrors the source order: compute
`missing_fields`, `load_courses()` (an unreadable file raises out of the
function), append, try the write and the success log (either failing takes
the `except` branch, which increments `error_count` and emits the
`save_courses_error` span), then the missing-fields branch with its own
increment and span, else the success flash. -/
def save_courses (writeOk : Bool) (data : CourseData) (s : St) :
    Except StorageError (St × List TraceEvent) :=
  match load_courses s.file with
  | .error e => .error e
  | .ok courses =>
    let missing := missing_fields data
    let appended := courses ++ [data]
    let tryResult : St × List TraceEvent :=
      if writeOk then
        let s0 : St := { s with file := some (some appended) }
        match successLog data with
        | some msg => (s0, [TraceEvent.logInfo msg])
        | none =>
            let ec := s0.error_count + 1
            ({ s0 with error_count := ec }, saveErrorTrace "KeyError" ec)
      else
        let ec := s.error_count + 1
        ({ s with error_count := ec }, saveErrorTrace "write failure" ec)
    let s1 := tryResult.1
    let tr1 := tryResult.2
    if missing = [] then
      .ok (s1, tr1 ++
        [TraceEvent.flash
          ("Course \x27" ++ data.name.getD "" ++ "\x27 added successfully!") "success"])
    else
      let ec := s1.error_count + 1
      .ok ({ s1 with error_count := ec }, tr1 ++ missingTrace (missingMsg data) ec)

/-- Embeds the `index` route: log the client address only when it has not
been logged before, record it, then open and close the `index` span. -/
def index (ip : String) (s : St) : RouteResult :=
  let ipStep : St × List TraceEvent :=
    if ip ∈ s.logged_ips then (s, [])
    else ({ s with logged_ips := ip :: s.logged_ips },
          [TraceEvent.logInfo ("User IP: " ++ ip)])
  { state := ipStep.1,
    trace := ipStep.2 ++
      [ .spanStart "index",
        .setAttribute "index" "http.client_ip" (.str ip),
        .spanEnd "index" ],
    response := .page "index.html" }

/-- Embeds the `course_catalog` route (the `listCourses` operation). -/
def course_catalog (url : String) (s : St) : RouteResult :=
  let s1 : St := { s with catalog_access_count := s.catalog_access_count + 1 }
  let pre : List TraceEvent :=
    [ .spanStart "course_catalog",
      .setAttribute "course_catalog" "http.method" (.str "GET"),
      .setAttribute "course_catalog" "http.url" (.str url),
      .setAttribute "course_catalog" "catalog.access_count" (.num s1.catalog_access_count),
      .addEvent "course_catalog" "Loading courses from file" ]
  match load_courses s1.file with
  | .error _ =>
      { state := s1, trace := pre ++ [.spanEnd "course_catalog"],
        response := .serverError }
  | .ok courses =>
      { state := s1,
        trace := pre ++
          [ .setAttribute "course_catalog" "course.count" (.num courses.length),
            .addEvent "course_catalog" "Rendering course catalog template",
            .logInfo "Course catalog page rendered successfully",
            .spanEnd "course_catalog" ],
        response := .catalogPage courses }

/-- The dict construction in `add_course`: `request.form[k]` for each of the
nine keys; an absent key aborts the request with a 400 (`none`). -/
def formToCourse (form : CourseData) : Option Course :=
  match form.code, form.name, form.instructor, form.semester, form.schedule,
        form.classroom, form.prerequisites, form.grading, form.description with
  | some a, some b, some c, some d, some e, some f, some g, some h, some i =>
      some ⟨a, b, c, d, e, f, g, h, i⟩
  | _, _, _, _, _, _, _, _, _ => none

/-- Embeds the POST branch of the `add_course` route: open the `add_course`
span, set request attributes, extract the form (an absent key aborts with 400,
still closing the span), set course attributes, call `save_courses` (an
unreadable catalog file raises, still closing the span), and redirect to the
catalog regardless of validation or write failure inside `save_courses`. -/
def add_course (writeOk : Bool) (ip url : String) (form : CourseData) (s : St) :
    RouteResult :=
  let pre : List TraceEvent :=
    [ .spanStart "add_course",
      .setAttribute "add_course" "http.method" (.str "POST"),
      .setAttribute "add_course" "http.url" (.str url),
      .setAttribute "add_course" "http.client_ip" (.str ip),
      .addEvent "add_course" "Extracting course data from form" ]
  match formToCourse form with
  | none =>
      { state := s, trace := pre ++ [.spanEnd "add_course"],
        response := .badRequest }
  | some course =>
      let mid : List TraceEvent :=
        [ .setAttribute "add_course" "course.code" (.str course.code),
          .setAttribute "add_course" "course.name" (.str course.name),
          .addEvent "add_course" "Saving course data to file" ]
      match save_courses writeOk course.toData s with
      | .error _ =>
          { state := s, trace := pre ++ mid ++ [.spanEnd "add_course"],
            response := .serverError }
      | .ok (s1, tr) =>
          { state := s1, trace := pre ++ mid ++ tr ++ [.spanEnd "add_course"],
            response := .redirect "course_catalog" }

/-- The linear search in `course_details`: first course whose `code` equals
the argument; indexing a stored dict without a `code` key raises. -/
def findCourse (code : String) : List CourseData → Except PyError (Option CourseData)
  | [] => .ok none
  | c :: rest =>
    match c.code with
    | none => .error .keyError
    | some cd => if cd = code then .ok (some c) else findCourse code rest

/-- The flash message for a failed lookup in `course_details`. -/
def notFoundMsg (code : String) : String :=
  "No course found with code \x27" ++ code ++ "\x27."

/-- Embeds the `course_details` route (the `getCourse` operation): open the
span, set request attributes, load the catalog (unreadable raises: 500, span
closed), search for the first matching course; miss flashes a user-facing
message and redirects; a hit attaches code/name attributes (a stored record
without a `name` key raises: 500) and renders the details page. -/
def course_details (ip url code : String) (s : St) : RouteResult :=
  let pre : List TraceEvent :=
    [ .spanStart "course_details",
      .setAttribute "course_details" "http.method" (.str "GET"),
      .setAttribute "course_details" "http.url" (.str url),
      .setAttribute "course_details" "http.client_ip" (.str ip),
      .addEvent "course_details" "Loading courses from file" ]
  match load_courses s.file with
  | .error _ =>
      { state := s, trace := pre ++ [.spanEnd "course_details"],
        response := .serverError }
  | .ok courses =>
    let mid : List TraceEvent :=
      [ .setAttribute "course_details" "course.count" (.num courses.length),
        .addEvent "course_details" ("Searching for course with code " ++ code) ]
    match findCourse code courses with
    | .error _ =>
        { state := s, trace := pre ++ mid ++ [.spanEnd "course_details"],
          response := .serverError }
    | .ok none =>
        { state := s,
          trace := pre ++ mid ++
            [ .flash (notFoundMsg code) "error", .spanEnd "course_details" ],
          response := .redirect "course_catalog" }
    | .ok (some course) =>
        let codeAttr : TraceEvent :=
          .setAttribute "course_details" "course.code" (.str code)
        match course.name with
        | none =>
            { state := s, trace := pre ++ mid ++ [codeAttr, .spanEnd "course_details"],
              response := .serverError }
        | some nm =>
            { state := s,
              trace := pre ++ mid ++
                [ codeAttr,
                  .setAttribute "course_details" "course.name" (.str nm),
                  .addEvent "course_details" "Rendering course details template",
                  .spanEnd "course_details" ],
              response := .detailsPage course }

/-- Embeds the `manual_trace` route. -/
def manual_trace (ip url : String) (s : St) : RouteResult :=
  { state := s,
    trace :=
      [ .spanStart "manual-span",
        .setAttribute "manual-span" "http.method" (.str "GET"),
        .setAttribute "manual-span" "http.url" (.str url),
        .setAttribute "manual-span" "http.client_ip" (.str ip),
        .addEvent "manual-span" "Processing request",
        .spanEnd "manual-span" ],
    response := .text "Manual trace recorded!" 200 }

/-- Embeds the `auto_instrumented` route. -/
def auto_instrumented (s : St) : RouteResult :=
  { state := s, trace := [], response := .text "This route is auto-instrumented!" 200 }

/-- Embeds the GET branch of `add_course`: render the form, no span. -/
def add_course_get (s : St) : RouteResult :=
  { state := s, trace := [], response := .page "add_course.html" }

/-- One inbound request to any route of the app. -/
inductive Op
  | opIndex (ip : String)
  | opCatalog (url : String)
  | opAddCourseGet
  | opAddCourse (writeOk : Bool) (ip url : String) (form : CourseData)
  | opDetails (ip url code : String)
  | opManualTrace (ip url : String)
  | opAuto

/-- Dispatch of one request to the corresponding route handler. -/
def step : Op → St → RouteResult
  | .opIndex ip, s => index ip s
  | .opCatalog url, s => course_catalog url s
  | .opAddCourseGet, s => add_course_get s
  | .opAddCourse writeOk ip url form, s => add_course writeOk ip url form s
  | .opDetails ip url code, s => course_details ip url code s
  | .opManualTrace ip url, s => manual_trace ip url s
  | .opAuto, s => auto_instrumented s

/-- Names of the spans a trace opens, in order. -/
def startsOf (tr : List TraceEvent) : List String :=
  tr.filterMap fun e =>
    match e with
    | .spanStart n => some n
    | _ => none

/-- Names of the spans a trace closes, in order. -/
def endsOf (tr : List TraceEvent) : List String :=
  tr.filterMap fun e =>
    match e with
    | .spanEnd n => some n
    | _ => none

/-- The condition under which the `except` branch of `save_courses` runs:
the write itself fails, or the success-log f-string raises a `KeyError`. -/
def persistFailed (writeOk : Bool) (d : CourseData) : Bool :=
  !writeOk || (successLog d).isNone

/-- Number of `save_courses_error` spans one `save_courses` call opens. -/
def numErrSpans (writeOk : Bool) (d : CourseData) : Nat :=
  (if persistFailed writeOk d then 1 else 0) + (if missing_fields d = [] then 0 else 1)

/-- A fully-populated valid course used as a concrete test input. -/
def cs101 : Course :=
  ⟨"CS101", "Intro", "A", "F24", "MWF", "R1", "", "letter", "basics"⟩

/-- A fully-populated course whose `name` field is empty (invalid). -/
def csNoName : Course :=
  ⟨"CS101", "", "A", "F24", "MWF", "R1", "", "letter", "basics"⟩

/-- Fresh process state: no catalog file, zero counters, no logged IPs. -/
def st0 : St := ⟨none, 0, 0, []⟩

/-- Process state whose catalog file holds exactly the course `cs101`. -/
def stOne : St := ⟨some (some [cs101.toData]), 0, 0, []⟩

/-- The state and trace produced by saving `cs101` into `stOne`. -/
def saveDemo : St × List TraceEvent :=
  match save_courses true cs101.toData stOne with
  | .ok r => r
  | .error _ => (stOne, [])

/-- The two required-field checks, written out per field: `missing_fields`
holds `"code"` precisely when `code` is absent or empty, then `"name"`
precisely when `name` is absent or empty. -/
theorem fieldMissing_code (d : CourseData) :
    fieldMissing d "code" = (match d.code with | none => true | some v => v == "") := rfl

theorem fieldMissing_name (d : CourseData) :
    fieldMissing d "name" = (match d.name with | none => true | some v => v == "") := rfl

theorem fieldMissing_code_decide (d : CourseData) :
    fieldMissing d "code" = decide (d.code = none ∨ d.code = some "") := by
  cases h : d.code
  · simp [fieldMissing_code, h]
  · rename_i v
    by_cases hv : v = "" <;> simp [fieldMissing_code, h, hv]

theorem fieldMissing_name_decide (d : CourseData) :
    fieldMissing d "name" = decide (d.name = none ∨ d.name = some "") := by
  cases h : d.name
  · simp [fieldMissing_name, h]
  · rename_i v
    by_cases hv : v = "" <;> simp [fieldMissing_name, h, hv]

theorem missing_fields_char (d : CourseData) :
    missing_fields d =
      (if d.code = none ∨ d.code = some "" then ["code"] else []) ++
      (if d.name = none ∨ d.name = some "" then ["name"] else []) := by
  unfold missing_fields required_fields
  simp only [List.filter, fieldMissing_code_decide, fieldMissing_name_decide]
  by_cases hc : (d.code = none ∨ d.code = some "") <;>
  by_cases hn : (d.name = none ∨ d.name = some "") <;>
    simp [hc, hn]

/-- C7: validation of a submitted record fails exactly when `code` or `name`
is absent or empty, and the reported missing-field names are exactly the
required fields that are absent or empty, in the order `code`, `name`. -/
theorem validate_iff_required_missing (d : CourseData) :
    (missing_fields d ≠ [] ↔
      (d.code = none ∨ d.code = some "" ∨ d.name = none ∨ d.name = some "")) ∧
    missing_fields d =
      (if d.code = none ∨ d.code = some "" then ["code"] else []) ++
      (if d.name = none ∨ d.name = some "" then ["name"] else []) := by
  refine ⟨?_, missing_fields_char d⟩
  rw [missing_fields_char d]
  split_ifs <;> simp_all

/-- C8: loading when no catalog file exists yields the empty list and no
error, and a `StorageError` arises exactly when the file exists but its
content is unreadable. -/
theorem load_empty_storage_ok :
    load_courses none = .ok [] ∧
    ∀ content : FileContent,
      (load_courses content = .error StorageError.unreadable ↔ content = some none) := by
  refine ⟨rfl, ?_⟩
  intro content
  match content with
  | none => simp [load_courses]
  | some none => simp [load_courses]
  | some (some courses) => simp [load_courses]

/-- C10: the `index` route logs a `User IP` record exactly on the first
request from a given address: a fresh address is logged once and recorded,
an already-recorded address is not logged, and a repeated request from the
same address never logs. -/
theorem userIP_logged_once (ip : String) (s : St) :
    (ip ∉ s.logged_ips →
      (index ip s).trace.count (TraceEvent.logInfo ("User IP: " ++ ip)) = 1 ∧
      ip ∈ (index ip s).state.logged_ips) ∧
    (ip ∈ s.logged_ips →
      (index ip s).trace.count (TraceEvent.logInfo ("User IP: " ++ ip)) = 0) ∧
    (index ip (index ip s).state).trace.count
      (TraceEvent.logInfo ("User IP: " ++ ip)) = 0 := by
  by_cases hip : ip ∈ s.logged_ips <;>
    simp [index, hip, List.count_cons, List.count_nil]

/-- Closed instance of `userIP_logged_once` at a concrete address and the
fresh state, with its membership hypothesis discharged by evaluation. -/
theorem userIP_logged_once_witness :
    (index "1.2.3.4" st0).trace.count
      (TraceEvent.logInfo ("User IP: " ++ "1.2.3.4")) = 1 ∧
    "1.2.3.4" ∈ (index "1.2.3.4" st0).state.logged_ips :=
  (userIP_logged_once "1.2.3.4" st0).1 (by decide)

/-- A `save_courses` call on a readable (or absent) catalog file always
returns normally: only an unreadable file makes it raise. -/
theorem save_courses_ok (writeOk : Bool) (data : CourseData) (s : St)
    (courses : List CourseData) (hload : load_courses s.file = .ok courses) :
    ∃ s1 tr, save_courses writeOk data s = .ok (s1, tr) := by
  cases hres : save_courses writeOk data s with
  | ok r => exact ⟨r.1, r.2, by simp [hres]⟩
  | error e =>
      exfalso
      unfold save_courses at hres
      rw [hload] at hres
      dsimp only at hres
      repeat split at hres
      all_goals simp at hres

/-- Full characterization of a successful `save_courses` call: the file gains
exactly the appended record when the write succeeds, the error counter gains
one per error branch taken, other state fields are untouched, and the emitted
effects contain the branch-specific log records, flash messages, span
attributes and events, with one `save_courses_error` span opened and closed
per error branch. -/
theorem save_courses_spec (writeOk : Bool) (data : CourseData) (s : St)
    (courses : List CourseData) (s1 : St) (tr : List TraceEvent)
    (hload : load_courses s.file = .ok courses)
    (h : save_courses writeOk data s = .ok (s1, tr)) :
    s1.file = (if writeOk then some (some (courses ++ [data])) else s.file) ∧
    s1.error_count = s.error_count + (if persistFailed writeOk data then 1 else 0)
      + (if missing_fields data = [] then 0 else 1) ∧
    s1.catalog_access_count = s.catalog_access_count ∧
    s1.logged_ips = s.logged_ips ∧
    (missing_fields data ≠ [] →
      TraceEvent.logError (missingMsg data) ∈ tr ∧
      TraceEvent.flash (missingMsg data) "error" ∈ tr ∧
      TraceEvent.addEvent "save_courses_error" (missingMsg data) ∈ tr) ∧
    (missing_fields data = [] →
      TraceEvent.flash ("Course \x27" ++ data.name.getD "" ++ "\x27 added successfully!")
        "success" ∈ tr) ∧
    (writeOk = false →
      TraceEvent.logError ("Error saving course data: " ++ "write failure") ∈ tr ∧
      TraceEvent.addEvent "save_courses_error"
        ("Error saving course data: " ++ "write failure") ∈ tr ∧
      TraceEvent.setAttribute "save_courses_error" "error.type"
        (AttrVal.str "FileWriteError") ∈ tr) ∧
    startsOf tr = List.replicate (numErrSpans writeOk data) "save_courses_error" ∧
    endsOf tr = List.replicate (numErrSpans writeOk data) "save_courses_error" := by
  unfold save_courses at h
  rw [hload] at h
  dsimp only at h
  repeat split at h
  all_goals
    (injection h with hpair
     injection hpair with h1 h2
     subst h1
     subst h2
     cases writeOk <;> cases hn : data.name <;> cases hc : data.code <;>
       simp_all [persistFailed, numErrSpans, saveErrorTrace, missingTrace, missingMsg,
                 startsOf, endsOf, List.filterMap, successLog])

/-- The state of `course_details` is returned unchanged on every branch. -/
theorem course_details_state (ip url code : String) (s : St) :
    (course_details ip url code s).state = s := by
  unfold course_details
  dsimp only
  repeat' split
  all_goals rfl

/-- A successful `save_courses` call never decreases the error counter. -/
theorem save_courses_mono (writeOk : Bool) (data : CourseData) (s s1 : St)
    (tr : List TraceEvent) (h : save_courses writeOk data s = .ok (s1, tr)) :
    s.error_count ≤ s1.error_count := by
  cases hl : load_courses s.file with
  | error e =>
      unfold save_courses at h
      rw [hl] at h
      exact absurd h (by simp)
  | ok courses =>
      have hec := (save_courses_spec writeOk data s courses s1 tr hl h).2.1
      rw [hec]
      split_ifs <;> omega

/-- C1: saving a course and then loading yields the previous catalog with the
course appended: the length grows by exactly one, the last element is the
saved record field-for-field, and the prior elements are unchanged in their
original order. -/
theorem save_then_load_appends (data : CourseData) (s : St) (courses : List CourseData)
    (hload : load_courses s.file = .ok courses) :
    ∃ s1 tr, save_courses true data s = .ok (s1, tr) ∧
      load_courses s1.file = .ok (courses ++ [data]) ∧
      (courses ++ [data]).length = courses.length + 1 ∧
      (courses ++ [data]).getLast? = some data ∧
      (courses ++ [data]).take courses.length = courses := by
  obtain ⟨s1, tr, hok⟩ := save_courses_ok true data s courses hload
  obtain ⟨hfile, -, -, -, -, -, -, -, -⟩ :=
    save_courses_spec true data s courses s1 tr hload hok
  refine ⟨s1, tr, hok, ?_, by simp, ?_, ?_⟩
  · simp only [if_pos] at hfile
    rw [hfile]
    rfl
  · simp
  · simp [List.take_left]

/-- Closed instance of `save_then_load_appends`: saving `cs101` on a catalog
already holding one course, with the load hypothesis discharged by
evaluation. -/
theorem save_then_load_appends_witness :
    ∃ s1 tr, save_courses true cs101.toData stOne = .ok (s1, tr) ∧
      load_courses s1.file = .ok ([cs101.toData] ++ [cs101.toData]) ∧
      ([cs101.toData] ++ [cs101.toData]).length = [cs101.toData].length + 1 ∧
      ([cs101.toData] ++ [cs101.toData]).getLast? = some cs101.toData ∧
      ([cs101.toData] ++ [cs101.toData]).take [cs101.toData].length = [cs101.toData] :=
  save_then_load_appends cs101.toData stOne [cs101.toData] rfl

/-- C2: when a required field is absent or empty, `save_courses` still
appends the record to the catalog file, while reporting the missing-fields
outcome: an error log record, an error-counter increment, a span event, and
a user-facing flash message. -/
theorem persists_despite_missing_fields (data : CourseData) (s : St)
    (courses : List CourseData)
    (hload : load_courses s.file = .ok courses)
    (hbad : data.code = none ∨ data.code = some "" ∨ data.name = none ∨ data.name = some "") :
    ∃ s1 tr, save_courses true data s = .ok (s1, tr) ∧
      s1.file = some (some (courses ++ [data])) ∧
      s1.error_count = s.error_count + (if persistFailed true data then 1 else 0) + 1 ∧
      TraceEvent.logError (missingMsg data) ∈ tr ∧
      TraceEvent.flash (missingMsg data) "error" ∈ tr ∧
      TraceEvent.addEvent "save_courses_error" (missingMsg data) ∈ tr := by
  have hm : missing_fields data ≠ [] := by
    rw [missing_fields_char data]
    rcases hbad with h | h | h | h <;> simp [h]
  obtain ⟨s1, tr, hok⟩ := save_courses_ok true data s courses hload
  obtain ⟨hfile, hec, -, -, hmem, -, -, -, -⟩ :=
    save_courses_spec true data s courses s1 tr hload hok
  obtain ⟨hlog, hflash, hevent⟩ := hmem hm
  refine ⟨s1, tr, hok, ?_, ?_, hlog, hflash, hevent⟩
  · simpa using hfile
  · rw [hec]
    simp [hm]

/-- Closed instance of `persists_despite_missing_fields`: a record with an
empty `name` saved into the fresh state, hypotheses discharged by
evaluation. -/
theorem persists_despite_missing_fields_witness :
    ∃ s1 tr, save_courses true csNoName.toData st0 = .ok (s1, tr) ∧
      s1.file = some (some ([] ++ [csNoName.toData])) ∧
      s1.error_count = st0.error_count
        + (if persistFailed true csNoName.toData then 1 else 0) + 1 ∧
      TraceEvent.logError (missingMsg csNoName.toData) ∈ tr ∧
      TraceEvent.flash (missingMsg csNoName.toData) "error" ∈ tr ∧
      TraceEvent.addEvent "save_courses_error" (missingMsg csNoName.toData) ∈ tr :=
  persists_despite_missing_fields csNoName.toData st0 [] rfl (by decide)

/-- C3: the process-wide error counter never decreases across any route
invocation, and a returning `save_courses` call increases it by exactly one
per failed persistence (the `except` branch) plus exactly one per failed
validation (a nonempty missing-fields list); no operation decrements or
resets it. -/
theorem error_counter_monotone :
    (∀ op s, s.error_count ≤ (step op s).state.error_count) ∧
    (∀ writeOk data s s1 tr, save_courses writeOk data s = .ok (s1, tr) →
      s1.error_count = s.error_count + (if persistFailed writeOk data then 1 else 0)
        + (if missing_fields data = [] then 0 else 1)) := by
  constructor
  · intro op s
    cases op with
    | opIndex ip => by_cases h : ip ∈ s.logged_ips <;> simp [step, index, h]
    | opCatalog url =>
        simp only [step, course_catalog]
        split <;> simp
    | opAddCourseGet => simp [step, add_course_get]
    | opAddCourse writeOk ip url form =>
        simp only [step, add_course]
        cases hf : formToCourse form with
        | none => simp
        | some course =>
            dsimp only
            cases hs : save_courses writeOk course.toData s with
            | error e => simp [hs]
            | ok r =>
                obtain ⟨s1, tr⟩ := r
                exact save_courses_mono writeOk course.toData s s1 tr hs
    | opDetails ip url code => simp [step, course_details_state]
    | opManualTrace ip url => simp [step, manual_trace]
    | opAuto => simp [step, auto_instrumented]
  · intro writeOk data s s1 tr h
    cases hl : load_courses s.file with
    | error e =>
        unfold save_courses at h
        rw [hl] at h
        exact absurd h (by simp)
    | ok courses => exact (save_courses_spec writeOk data s courses s1 tr hl h).2.1

/-- Closed instance of `error_counter_monotone`: monotonicity across one
concrete failing request, and the exact-increment law at a concrete
successful save, its hypothesis discharged by evaluation. -/
theorem error_counter_monotone_witness :
    st0.error_count ≤
      (step (Op.opAddCourse false "1.2.3.4" "/add_course" cs101.toData) st0).state.error_count ∧
    saveDemo.1.error_count = stOne.error_count
      + (if persistFailed true cs101.toData then 1 else 0)
      + (if missing_fields cs101.toData = [] then 0 else 1) :=
  ⟨error_counter_monotone.1 _ st0,
   error_counter_monotone.2 true cs101.toData stOne saveDemo.1 saveDemo.2 rfl⟩

/-- The search over a catalog of fully-populated course records never raises
and returns the first record whose `code` matches the argument. -/
theorem findCourse_map (code : String) (catalog : List Course) :
    findCourse code (catalog.map Course.toData) =
      .ok ((catalog.find? (fun c => c.code == code)).map Course.toData) := by
  induction catalog with
  | nil => rfl
  | cons c rest ih =>
      by_cases h : c.code = code
      · simp [findCourse, Course.toData, List.find?, h, ih]
      · have hb : (c.code == code) = false := by simp [h]
        simp [findCourse, Course.toData, List.find?, h, hb, ih]

/-- When the catalog holds course records and one matches, `course_details`
renders exactly the first matching course. -/
theorem course_details_found (ip url code : String) (catalog : List Course)
    (s : St) (c : Course)
    (hfile : s.file = some (some (catalog.map Course.toData)))
    (hc : catalog.find? (fun c2 => c2.code == code) = some c) :
    (course_details ip url code s).response = .detailsPage c.toData := by
  unfold course_details
  rw [hfile]
  dsimp only [load_courses]
  rw [findCourse_map, hc]
  rfl

/-- When the catalog holds course records and none matches, `course_details`
flashes a user-facing not-found message and redirects. -/
theorem course_details_miss (ip url code : String) (catalog : List Course) (s : St)
    (hfile : s.file = some (some (catalog.map Course.toData)))
    (hmiss : catalog.find? (fun c2 => c2.code == code) = none) :
    (course_details ip url code s).response = .redirect "course_catalog" ∧
    TraceEvent.flash (notFoundMsg code) "error" ∈ (course_details ip url code s).trace := by
  unfold course_details
  rw [hfile]
  dsimp only [load_courses]
  rw [findCourse_map, hmiss]
  exact ⟨rfl, by simp⟩

/-- C6: `getCourse` (the `course_details` route) loads the catalog and
renders exactly the first course whose `code` field equals the argument;
when no course matches it produces the user-facing not-found outcome and
redirects, never a different course. -/
theorem getCourse_first_match (ip url code : String) (catalog : List Course) (s : St)
    (hfile : s.file = some (some (catalog.map Course.toData))) :
    (∀ c, catalog.find? (fun c2 => c2.code == code) = some c →
      (course_details ip url code s).response = .detailsPage c.toData) ∧
    (catalog.find? (fun c2 => c2.code == code) = none →
      (course_details ip url code s).response = .redirect "course_catalog" ∧
      TraceEvent.flash (notFoundMsg code) "error" ∈ (course_details ip url code s).trace) :=
  ⟨fun c hc => course_details_found ip url code catalog s c hfile hc,
   fun hmiss => course_details_miss ip url code catalog s hfile hmiss⟩

/-- Closed instance of `getCourse_first_match`: looking up `CS101` in a
one-course catalog renders that course, hypotheses discharged by
evaluation. -/
theorem getCourse_first_match_witness :
    (course_details "1.2.3.4" "/course/CS101" "CS101" stOne).response =
      .detailsPage cs101.toData :=
  (getCourse_first_match "1.2.3.4" "/course/CS101" "CS101" [cs101] stOne rfl).1
    cs101 (by decide)

/-- The C9 claim fails on the code: looking up an absent code in a one-course
catalog flashes the user-facing message, yet the error counter stays at its
prior value, zero. -/
theorem notFound_not_counted_counterexample :
    stOne.error_count = 0 ∧
    (course_details "1.2.3.4" "/course/CS999" "CS999" stOne).state.error_count = 0 ∧
    TraceEvent.flash (notFoundMsg "CS999") "error" ∈
      (course_details "1.2.3.4" "/course/CS999" "CS999" stOne).trace := by decide

/-- C9 amended: a `getCourse` lookup miss surfaces the user-facing not-found
message and redirects, but does not increment the process-wide error
counter: `course_details` leaves the state, the counter included,
unchanged. -/
theorem notFound_message_not_counted (ip url code : String) (catalog : List Course)
    (s : St)
    (hfile : s.file = some (some (catalog.map Course.toData)))
    (hmiss : catalog.find? (fun c2 => c2.code == code) = none) :
    (course_details ip url code s).state.error_count = s.error_count ∧
    (course_details ip url code s).response = .redirect "course_catalog" ∧
    TraceEvent.flash (notFoundMsg code) "error" ∈ (course_details ip url code s).trace := by
  obtain ⟨hresp, hflash⟩ := course_details_miss ip url code catalog s hfile hmiss
  exact ⟨by rw [course_details_state], hresp, hflash⟩

/-- Closed instance of `notFound_message_not_counted` at a concrete missing
code, hypotheses discharged by evaluation. -/
theorem notFound_message_not_counted_witness :
    (course_details "1.2.3.4" "/course/CS999" "CS999" stOne).state.error_count =
      stOne.error_count ∧
    (course_details "1.2.3.4" "/course/CS999" "CS999" stOne).response =
      .redirect "course_catalog" ∧
    TraceEvent.flash (notFoundMsg "CS999") "error" ∈
      (course_details "1.2.3.4" "/course/CS999" "CS999" stOne).trace :=
  notFound_message_not_counted "1.2.3.4" "/course/CS999" "CS999" [cs101] stOne rfl
    (by decide)

/-- The C5 claim fails on the code: with a valid record and a failing write,
`add_course` increments the counter and logs, but then redirects normally
and flashes a success message instead of returning a storage error. -/
theorem storage_error_not_returned_counterexample :
    (add_course false "1.2.3.4" "/add_course" cs101.toData st0).response =
      .redirect "course_catalog" ∧
    TraceEvent.flash "Course \x27Intro\x27 added successfully!" "success" ∈
      (add_course false "1.2.3.4" "/add_course" cs101.toData st0).trace ∧
    (add_course false "1.2.3.4" "/add_course" cs101.toData st0).state.error_count =
      st0.error_count + 1 := by decide

/-- C5 amended: when the storage write fails during `addCourse`, the error
counter increases by exactly one and a `FileWriteError`-typed error log,
span attribute and span event are emitted, but `addCourse` does not return
a storage error to its caller: it redirects normally and, since the record
is valid, flashes a success message. -/
theorem storage_failure_logged_not_surfaced (ip url : String) (form : CourseData)
    (course : Course) (s : St) (courses : List CourseData)
    (hform : formToCourse form = some course)
    (hload : load_courses s.file = .ok courses)
    (hvalid : missing_fields course.toData = []) :
    (add_course false ip url form s).state.error_count = s.error_count + 1 ∧
    TraceEvent.logError ("Error saving course data: " ++ "write failure") ∈
      (add_course false ip url form s).trace ∧
    TraceEvent.addEvent "save_courses_error"
      ("Error saving course data: " ++ "write failure") ∈
      (add_course false ip url form s).trace ∧
    TraceEvent.setAttribute "save_courses_error" "error.type"
      (AttrVal.str "FileWriteError") ∈ (add_course false ip url form s).trace ∧
    (add_course false ip url form s).response = .redirect "course_catalog" ∧
    TraceEvent.flash ("Course \x27" ++ course.name ++ "\x27 added successfully!")
      "success" ∈ (add_course false ip url form s).trace := by
  obtain ⟨s1, tr, hok⟩ := save_courses_ok false course.toData s courses hload
  obtain ⟨-, hec, -, -, -, hfl, hwf, -, -⟩ :=
    save_courses_spec false course.toData s courses s1 tr hload hok
  obtain ⟨hlog, hevt, hattr⟩ := hwf rfl
  have hflash : TraceEvent.flash ("Course \x27" ++ course.name ++ "\x27 added successfully!")
      "success" ∈ tr := by
    have := hfl hvalid
    simpa [Course.toData] using this
  unfold add_course
  rw [hform]
  dsimp only
  rw [hok]
  dsimp only
  refine ⟨?_, ?_, ?_, ?_, rfl, ?_⟩
  · rw [hec]
    simp [hvalid, persistFailed]
  · simp only [List.mem_append]
    exact Or.inl (Or.inr (by simpa using hlog))
  · simp only [List.mem_append]
    exact Or.inl (Or.inr (by simpa using hevt))
  · simp only [List.mem_append]
    exact Or.inl (Or.inr hattr)
  · simp only [List.mem_append]
    exact Or.inl (Or.inr hflash)

/-- Closed instance of `storage_failure_logged_not_surfaced`: saving `cs101`
into the fresh state with a failing write, hypotheses discharged by
evaluation. -/
theorem storage_failure_logged_not_surfaced_witness :
    (add_course false "10.0.0.1" "/add_course" cs101.toData st0).state.error_count =
      st0.error_count + 1 ∧
    TraceEvent.logError ("Error saving course data: " ++ "write failure") ∈
      (add_course false "10.0.0.1" "/add_course" cs101.toData st0).trace ∧
    TraceEvent.addEvent "save_courses_error"
      ("Error saving course data: " ++ "write failure") ∈
      (add_course false "10.0.0.1" "/add_course" cs101.toData st0).trace ∧
    TraceEvent.setAttribute "save_courses_error" "error.type"
      (AttrVal.str "FileWriteError") ∈
      (add_course false "10.0.0.1" "/add_course" cs101.toData st0).trace ∧
    (add_course false "10.0.0.1" "/add_course" cs101.toData st0).response =
      .redirect "course_catalog" ∧
    TraceEvent.flash ("Course \x27" ++ cs101.name ++ "\x27 added successfully!")
      "success" ∈ (add_course false "10.0.0.1" "/add_course" cs101.toData st0).trace :=
  storage_failure_logged_not_surfaced "10.0.0.1" "/add_course" cs101.toData cs101 st0 []
    rfl rfl (by decide)

/-- A returning `save_courses` call presupposes a readable load. -/
theorem save_courses_ok_load (writeOk : Bool) (data : CourseData) (s s1 : St)
    (tr : List TraceEvent) (h : save_courses writeOk data s = .ok (s1, tr)) :
    ∃ courses, load_courses s.file = .ok courses := by
  cases hl : load_courses s.file with
  | error e =>
      unfold save_courses at h
      rw [hl] at h
      exact absurd h (by simp)
  | ok courses => exact ⟨courses, rfl⟩

/-- The state and trace produced by saving the invalid `csNoName` into
`st0`. -/
def saveNoNameDemo : St × List TraceEvent :=
  match save_courses true csNoName.toData st0 with
  | .ok r => r
  | .error _ => (st0, [])

/-- The C4 claim fails on the code: an `addCourse` request whose record
fails validation opens two spans (the `add_course` operation span and a
`save_courses_error` span), not exactly one. -/
theorem one_span_counterexample :
    (startsOf (add_course true "1.2.3.4" "/add_course" csNoName.toData st0).trace).length
      = 2 ∧
    ¬ (startsOf (add_course true "1.2.3.4" "/add_course" csNoName.toData st0).trace).length
      = 1 := by decide

/-- C4 amended: every route invocation closes each span it opens exactly
once (the closed span names are a permutation of the opened ones);
`listCourses` and `getCourse` open exactly the one operation span, while
`addCourse` opens its operation span plus exactly one `save_courses_error`
span per error branch taken inside `save_courses`. -/
theorem spans_balanced :
    (∀ op s, List.Perm (startsOf (step op s).trace) (endsOf (step op s).trace)) ∧
    (∀ url s, startsOf (course_catalog url s).trace = ["course_catalog"]) ∧
    (∀ ip url code s, startsOf (course_details ip url code s).trace = ["course_details"]) ∧
    (∀ writeOk ip url form s course s1 tr,
      formToCourse form = some course →
      save_courses writeOk course.toData s = .ok (s1, tr) →
      startsOf (add_course writeOk ip url form s).trace =
        "add_course" ::
          List.replicate (numErrSpans writeOk course.toData) "save_courses_error") := by
  refine ⟨?_, ?_, ?_, ?_⟩
  · intro op s
    cases op with
    | opIndex ip =>
        by_cases h : ip ∈ s.logged_ips <;> simp [step, index, h, startsOf, endsOf]
    | opCatalog url =>
        simp only [step, course_catalog]
        split <;> simp [startsOf, endsOf]
    | opAddCourseGet => simp [step, add_course_get, startsOf, endsOf]
    | opAuto => simp [step, auto_instrumented, startsOf, endsOf]
    | opManualTrace ip url => simp [step, manual_trace, startsOf, endsOf]
    | opDetails ip url code =>
        simp only [step]
        unfold course_details
        dsimp only
        repeat' split
        all_goals simp [startsOf, endsOf]
    | opAddCourse writeOk ip url form =>
        simp only [step]
        unfold add_course
        cases hf : formToCourse form with
        | none => simp [startsOf, endsOf]
        | some course =>
            dsimp only
            cases hs : save_courses writeOk course.toData s with
            | error e => simp [startsOf, endsOf]
            | ok r =>
                obtain ⟨s1, tr⟩ := r
                obtain ⟨courses, hl⟩ :=
                  save_courses_ok_load writeOk course.toData s s1 tr hs
                obtain ⟨-, -, -, -, -, -, -, hst, hen⟩ :=
                  save_courses_spec writeOk course.toData s courses s1 tr hl hs
                dsimp only
                simp only [startsOf, endsOf, List.filterMap_append] at hst hen ⊢
                simp [hst, hen, startsOf, endsOf,
                      (List.perm_append_singleton _ _).symm]
  · intro url s
    simp only [course_catalog]
    split <;> simp [startsOf]
  · intro ip url code s
    unfold course_details
    dsimp only
    repeat' split
    all_goals simp [startsOf]
  · intro writeOk ip url form s course s1 tr hform hs
    unfold add_course
    rw [hform]
    dsimp only
    rw [hs]
    dsimp only
    obtain ⟨courses, hl⟩ := save_courses_ok_load writeOk course.toData s s1 tr hs
    obtain ⟨-, -, -, -, -, -, -, hst, -⟩ :=
      save_courses_spec writeOk course.toData s courses s1 tr hl hs
    simp [startsOf, List.filterMap_append] at hst ⊢
    simp [hst, startsOf]

/-- Closed instance of the amended span accounting: the invalid concrete
request opens the operation span plus one error span, hypotheses discharged
by evaluation. -/
theorem spans_balanced_witness :
    startsOf (add_course true "1.2.3.4" "/add_course" csNoName.toData st0).trace =
      "add_course" ::
        List.replicate (numErrSpans true csNoName.toData) "save_courses_error" :=
  spans_balanced.2.2.2 true "1.2.3.4" "/add_course" csNoName.toData st0 csNoName
    saveNoNameDemo.1 saveNoNameDemo.2 rfl rfl

end CourseCatalog
